import Mathlib

/-!
Shallow embedding of `src/streamlit_app.py` (cronograma-formacao-2025):
the week-to-date resolver `get_start_date_from_week`, and the row-processing
loop of `generate_schedule` (null-skip, coercions, interval derivation,
completion handling, warning-skip on coercion exceptions, and the final
two-key sort).

Dates are modelled as integer day counts since 1970-01-01 (a Thursday).
`daysFromCivil` is the standard civil-calendar conversion, so concrete
dates in theorems can be written as `daysFromCivil y m d`.
-/

namespace Cronograma

/-- Days since 1970-01-01 of the proleptic-Gregorian date `y-m-d`
(valid for `y ≥ 1`, `1 ≤ m ≤ 12`).  Standard civil-from-days inverse
(era/year-of-era/day-of-year decomposition); all divisions are on `ℕ`
where floor division agrees with the usual algorithm. -/
def daysFromCivil (y m d : ℕ) : ℤ :=
  let y' : ℕ := y - (if m ≤ 2 then 1 else 0)
  let era : ℕ := y' / 400
  let yoe : ℕ := y' - era * 400
  let mp : ℕ := if 2 < m then m - 3 else m + 9
  let doy : ℕ := (153 * mp + 2) / 5 + (d - 1)
  let doe : ℕ := yoe * 365 + yoe / 4 - yoe / 100 + doy
  (era : ℤ) * 146097 + (doe : ℤ) - 719468

/-- Epoch-day number of January 1 of `year`. -/
def jan1Epoch (year : ℕ) : ℤ :=
  daysFromCivil year 1 1

/-- Weekday of an epoch-day number, Monday = 0 .. Sunday = 6
(Python's `date.weekday()` convention; 1970-01-01 was a Thursday, i.e. 3). -/
def weekdayM (day : ℤ) : ℤ :=
  (day + 3) % 7

/-- Embedding of `get_start_date_from_week(week, year)`
(src/streamlit_app.py lines 19-24), which parses
`f"{year}-W{int(week)}-1"` with format `"%Y-W%W-%w"`.

CPython's `_strptime` resolves `%W` (week of year, Monday as first day,
days before the year's first Monday forming week 0) together with
`%w = 1` (Monday) to the day-of-year
`1 + week0len + 7*(week-1)` for `week ≥ 1`, and `1 - firstWeekday` for
`week = 0`, where `firstWeekday` is the weekday of January 1 (Monday = 0)
and `week0len = (7 - firstWeekday) % 7`.  The `%W` regex only matches
numbers 0..53, so any other `week` raises `ValueError`; that failure is
modelled as `none`. -/
def get_start_date_from_week (week : ℤ) (year : ℕ) : Option ℤ :=
  if 0 ≤ week ∧ week ≤ 53 then
    let jan1 := jan1Epoch year
    let firstWeekday := weekdayM jan1
    let week0len := (7 - firstWeekday) % 7
    let julian := if week = 0 then 1 - firstWeekday else 1 + week0len + 7 * (week - 1)
    some (jan1 + julian - 1)
  else none

/-- A spreadsheet cell holding the `Duração (horas)` value: a number, the
pandas missing value `NaN`, or a non-numeric value such as text (for which
`duration_hours / 8` raises `TypeError`). -/
inductive Dur where
  | num (q : ℚ)
  | nan
  | nonNumeric (s : String)
deriving DecidableEq, Repr

/-- One spreadsheet row as the loop of `generate_schedule` reads it
(lines 83-86, after the `Concluído` column has been ensured, so
`completed` is already a `Bool`).  `none` models a missing (`NaN`) cell. -/
structure RawRow where
  week : Option ℚ
  durationHours : Dur
  topic : Option String
  trainer : Option String
  completed : Bool
deriving DecidableEq, Repr

/-- The dict appended to `tasks` (lines 109-119).  `inicio`/`fim` are in
(possibly fractional) days since the epoch: `timedelta(days=...)` accepts
fractional day counts, exact for the eighths of a day arising here.
`cor` is `row['Formador']` unstripped (`none` = the raw `NaN` cell). -/
structure Task where
  tarefa : String
  formador : String
  cor : Option String
  inicio : ℚ
  fim : ℚ
  semana : ℤ
  label : String
  opacity : ℚ
deriving DecidableEq, Repr

/-- Python's `int()` on a number truncates toward zero. -/
def pyInt (q : ℚ) : ℤ :=
  q.num.tdiv q.den

/-- Python's `str.strip()`: remove leading and trailing whitespace
(structural, over the character list). -/
def pyStrip (s : String) : String :=
  ⟨((s.data.dropWhile Char.isWhitespace).reverse.dropWhile Char.isWhitespace).reverse⟩

/-- A string as its list of code points.  Python compares strings
lexicographically by code point, which is exactly the lexicographic
order on these lists. -/
def strCode (s : String) : List ℕ :=
  s.data.map Char.toNat

/-- `max(1, duration_hours / 8)` (line 97).  For `NaN` the Python call
`max(1, nan)` returns `1` (the comparison `nan > 1` is false), so a `NaN`
duration does NOT raise; a non-numeric duration raises `TypeError` at the
division, modelled as `none`. -/
def daysNeeded : Dur → Option ℚ
  | .num q => some (max 1 (q / 8))
  | .nan => some 1
  | .nonNumeric _ => none

/-- Outcome of one iteration of the row loop: a task appended, a silent
`continue` from the null check (lines 88-89), or the `except` branch's
`st.warning(f"Skipping row {index}: {e}")` (lines 121-123), recorded as
the row index and the exception text. -/
inductive RowResult where
  | task (t : Task)
  | silentSkip
  | warnSkip (index : ℕ) (reason : String)
deriving DecidableEq, Repr

/-- One iteration of the `for index, row in df.iterrows()` body
(lines 81-123).  The null check precedes the coercions; `strptime`
(inside `get_start_date_from_week`, line 96) runs before the duration
division (line 97), so an out-of-range week wins over a bad duration. -/
def processRow (index : ℕ) (row : RawRow) : RowResult :=
  match row.week, row.topic with
  | none, _ => .silentSkip
  | some _, none => .silentSkip
  | some w, some tp =>
    let week : ℤ := pyInt w
    let topic : String := pyStrip tp
    let trainer : String := pyStrip ((row.trainer).getD "nan")
    match get_start_date_from_week week 2025 with
    | none => .warnSkip index "time data does not match format"
    | some startDate =>
      match daysNeeded row.durationHours with
      | none => .warnSkip index "unsupported operand type(s) for /"
      | some days =>
        let endDate : ℚ := (startDate : ℚ) + days
        let isDone := row.completed
        let colorGroup : Option String :=
          if isDone then some "Concluído" else row.trainer
        let opacityVal : ℚ := if isDone then 1 / 2 else 1
        let statusText : String := if isDone then "✅ " else ""
        let label := statusText ++ topic ++ " (" ++ trainer ++ ")"
        .task
          { tarefa := topic
            formador := trainer
            cor := colorGroup
            inicio := (startDate : ℚ)
            fim := endDate
            semana := week
            label := label
            opacity := opacityVal }

/-- Folding the loop over all rows from a starting index: the produced
tasks tagged with their row index (the order of `tasks.append`), the
number of silent skips, and the emitted warnings. -/
def processRows : ℕ → List RawRow → List (ℕ × Task) × ℕ × List (ℕ × String)
  | _, [] => ([], 0, [])
  | i, r :: rs =>
    let rest := processRows (i + 1) rs
    match processRow i r with
    | .task t => ((i, t) :: rest.1, rest.2.1, rest.2.2)
    | .silentSkip => (rest.1, rest.2.1 + 1, rest.2.2)
    | .warnSkip j m => (rest.1, rest.2.1, (j, m) :: rest.2.2)

/-- Sort key of `df_gantt.sort_values(by=['Início', 'Tarefa'],
ascending=[True, True])` (lines 133 and 136).  A pandas multi-column sort
uses a stable lexsort, so ties on both columns keep the original row
order; a stable sort by (`Início`, `Tarefa`) over rows tagged with their
distinct original indices is exactly a total sort by the lexicographic
triple (`Início`, `Tarefa`, index), with `Tarefa` compared by code
points as Python compares strings. -/
def sortKey (p : ℕ × Task) : ℚ ×ₗ List ℕ ×ₗ ℕ :=
  toLex (p.2.inicio, toLex (strCode p.2.tarefa, p.1))

/-- The sort order on index-tagged tasks. -/
def sortLe (a b : ℕ × Task) : Prop :=
  sortKey a ≤ sortKey b

instance : DecidableRel sortLe :=
  fun a b => inferInstanceAs (Decidable (sortKey a ≤ sortKey b))

instance : IsTrans (ℕ × Task) sortLe :=
  ⟨fun _ _ _ hab hbc => le_trans hab hbc⟩

instance : IsTotal (ℕ × Task) sortLe :=
  ⟨fun a b => le_total (sortKey a) (sortKey b)⟩

/-- The two identical `sort_values` calls (lines 133 and 136); sorting an
already-sorted list again is the identity, so one sort suffices. -/
def sortTasks (l : List (ℕ × Task)) : List (ℕ × Task) :=
  l.insertionSort sortLe

/-- The whole data path of `generate_schedule` from the post-`Concluído`
dataframe to the sorted `df_gantt` rows, plus the skip/warning counts. -/
def generate_schedule (rows : List RawRow) :
    List (ℕ × Task) × ℕ × List (ℕ × String) :=
  let p := processRows 0 rows
  (sortTasks p.1, p.2.1, p.2.2)

/-- The `Concluído` column handling (lines 41-45): when the column is
absent every row gets `False`; when present, `astype(bool)` applies
truthiness per cell, and `bool(nan)` is `True`, so a missing value in an
existing column becomes `True`. -/
def coerce_concluido (col : Option (List (Option Bool))) (n : ℕ) : List Bool :=
  match col with
  | none => List.replicate n false
  | some cells => cells.map (fun c => c.getD true)

/-- The index of a warning-skip outcome, and `none` for the other
outcomes: the warning of lines 121-123 names the skipped row. -/
def skipIndex? : RowResult → Option ℕ
  | .warnSkip i _ => some i
  | _ => none

/-- The scenario row of the spec: week 10, 8 hours, topic Intro,
trainer Ana, not completed. -/
def rowIntro : RawRow :=
  { week := some 10, durationHours := .num 8, topic := some "Intro",
    trainer := some "Ana", completed := false }

/-- The task the code builds from `rowIntro`: week 10 of 2025 resolves to
epoch day 20157 (2025-03-10) under the implemented `%W` convention. -/
def taskIntro : Task :=
  { tarefa := "Intro", formador := "Ana", cor := some "Ana",
    inicio := 20157, fim := 20158, semana := 10,
    label := "Intro (Ana)", opacity := 1 }

/-- The scenario row with a 10-hour duration. -/
def rowIntro10 : RawRow :=
  { rowIntro with durationHours := .num 10 }

/-- Task from `rowIntro10`: the span is max(1, 10/8) = 5/4 days. -/
def taskIntro10 : Task :=
  { taskIntro with fim := 20157 + 5 / 4 }

/-- The scenario row marked completed. -/
def rowDone : RawRow :=
  { rowIntro with completed := true }

/-- Task from `rowDone`: the color group is the literal string
written in the source, and the label carries the completion marker. -/
def taskDone : Task :=
  { taskIntro with
      cor := some "Concluído"
      opacity := 1 / 2
      label := "✅ Intro (Ana)" }

/-- The scenario row with whitespace-padded trainer text. -/
def rowPad : RawRow :=
  { rowIntro with trainer := some " Ana " }

/-- Task from `rowPad`: `Formador` is stripped but the color group is
the raw cell (line 102 reads `row['Formador']`, not the stripped copy). -/
def taskPad : Task :=
  { taskIntro with cor := some " Ana " }

/-- The scenario row with a missing (NaN) duration. -/
def rowNanDur : RawRow :=
  { rowIntro with durationHours := .nan }

/-- Task from `rowNanDur`: `max(1, nan/8)` is 1, so the row still
yields a one-day task instead of failing. -/
def taskNanDur : Task :=
  taskIntro

/-- The scenario row with a non-numeric duration cell. -/
def rowBadDur : RawRow :=
  { rowIntro with durationHours := .nonNumeric "abc" }

/-- The scenario row with a missing topic. -/
def rowNullTopic : RawRow :=
  { rowIntro with topic := none }

/-- A fractional week number (10.5) and a missing trainer cell, as the
explicit rational 21/2. -/
def halfWeek : ℚ :=
  ⟨21, 2, by decide, by norm_num⟩

/-- The scenario row with week 10.5 and no trainer. -/
def rowNoTrainer : RawRow :=
  { week := some halfWeek, durationHours := .num 8,
    topic := some "  Intro  ", trainer := none, completed := false }

/-- Task from `rowNoTrainer`: the week truncates to 10, the topic is
stripped, and the trainer becomes `str(nan) = "nan"`. -/
def taskNoTrainer : Task :=
  { tarefa := "Intro", formador := "nan", cor := none,
    inicio := 20157, fim := 20158, semana := 10,
    label := "Intro (nan)", opacity := 1 }

/-- Sorting example task A: starts 2025-03-03 (epoch day 20150), topic B. -/
def tA : Task :=
  { tarefa := "B", formador := "x", cor := some "x",
    inicio := 20150, fim := 20151, semana := 10,
    label := "B (x)", opacity := 1 }

/-- Sorting example task B: same start as A, topic A. -/
def tB : Task :=
  { tA with tarefa := "A" }

/-- Sorting example task C: starts 2025-02-24 (epoch day 20143), topic Z. -/
def tC : Task :=
  { tA with tarefa := "Z", inicio := 20143, fim := 20144 }

/-- January 1 of 2025 is epoch day 20089 (a Wednesday). -/
theorem jan1_2025 : jan1Epoch 2025 = 20089 := by
  decide

/-- Inversion of a successful loop iteration: a produced task comes from
non-null week and topic cells, a week accepted by `strptime`, and a
duration that did not raise, and its fields are exactly the ones built
at lines 92-119. -/
theorem processRow_task_inv {i : ℕ} {row : RawRow} {t : Task}
    (h : processRow i row = .task t) :
    ∃ w tp start days,
      row.week = some w ∧ row.topic = some tp ∧
      get_start_date_from_week (pyInt w) 2025 = some start ∧
      daysNeeded row.durationHours = some days ∧
      t = { tarefa := pyStrip tp
            formador := pyStrip ((row.trainer).getD "nan")
            cor := if row.completed then some "Concluído" else row.trainer
            inicio := (start : ℚ)
            fim := (start : ℚ) + days
            semana := pyInt w
            label := (if row.completed then "✅ " else "") ++ pyStrip tp ++
              " (" ++ pyStrip ((row.trainer).getD "nan") ++ ")"
            opacity := if row.completed then 1 / 2 else 1 } := by
  cases hw : row.week with
  | none =>
    simp only [processRow, hw] at h
    exact RowResult.noConfusion h
  | some w =>
    cases htp : row.topic with
    | none =>
      simp only [processRow, hw, htp] at h
      exact RowResult.noConfusion h
    | some tp =>
      simp only [processRow, hw, htp] at h
      cases hs : get_start_date_from_week (pyInt w) 2025 with
      | none => rw [hs] at h; simp at h
      | some start =>
        rw [hs] at h
        cases hd : daysNeeded row.durationHours with
        | none => rw [hd] at h; simp at h
        | some days =>
          rw [hd] at h
          simp only [RowResult.task.injEq] at h
          exact ⟨w, tp, start, days, rfl, rfl, hs, rfl, h.symm⟩

/-- Count of loop outcomes: every row yields exactly one of a task, a
silent skip, or a warning skip. -/
theorem processRows_count (i : ℕ) (rows : List RawRow) :
    (processRows i rows).1.length + (processRows i rows).2.1 +
      (processRows i rows).2.2.length = rows.length := by
  induction rows generalizing i with
  | nil => rfl
  | cons r rs ih =>
    have h := ih (i + 1)
    cases hr : processRow i r <;>
      simp only [processRows, hr] <;> simp only [List.length_cons] <;> omega

/-- Evaluation of the loop body on the scenario row. -/
theorem eval_rowIntro : processRow 0 rowIntro = .task taskIntro := by
  simp only [processRow, rowIntro, taskIntro, daysNeeded]
  norm_num [pyInt, pyStrip, get_start_date_from_week, jan1Epoch, daysFromCivil,
    weekdayM, max_def, Int.tdiv]
  all_goals decide

/-- Evaluation of the loop body on the 10-hour row. -/
theorem eval_rowIntro10 : processRow 0 rowIntro10 = .task taskIntro10 := by
  simp only [processRow, rowIntro10, rowIntro, taskIntro10, taskIntro, daysNeeded]
  norm_num [pyInt, pyStrip, get_start_date_from_week, jan1Epoch, daysFromCivil,
    weekdayM, max_def, Int.tdiv]
  all_goals decide

/-- Evaluation of the loop body on the completed row. -/
theorem eval_rowDone : processRow 0 rowDone = .task taskDone := by
  simp only [processRow, rowDone, rowIntro, taskDone, taskIntro, daysNeeded]
  norm_num [pyInt, pyStrip, get_start_date_from_week, jan1Epoch, daysFromCivil,
    weekdayM, max_def, Int.tdiv]
  all_goals decide

/-- Evaluation of the loop body on the padded-trainer row. -/
theorem eval_rowPad : processRow 1 rowPad = .task taskPad := by
  simp only [processRow, rowPad, rowIntro, taskPad, taskIntro, daysNeeded]
  norm_num [pyInt, pyStrip, get_start_date_from_week, jan1Epoch, daysFromCivil,
    weekdayM, max_def, Int.tdiv]
  all_goals decide

/-- Evaluation of the loop body on the missing-duration row. -/
theorem eval_rowNanDur : processRow 0 rowNanDur = .task taskNanDur := by
  simp only [processRow, rowNanDur, rowIntro, taskNanDur, taskIntro, daysNeeded]
  norm_num [pyInt, pyStrip, get_start_date_from_week, jan1Epoch, daysFromCivil,
    weekdayM, max_def, Int.tdiv]
  all_goals decide

/-- Evaluation of the loop body on the half-week, missing-trainer row. -/
theorem eval_rowNoTrainer : processRow 0 rowNoTrainer = .task taskNoTrainer := by
  have hpy : pyInt halfWeek = 10 := by decide
  simp only [processRow, rowNoTrainer, taskNoTrainer, daysNeeded, hpy]
  norm_num [pyStrip, get_start_date_from_week, jan1Epoch, daysFromCivil,
    weekdayM, max_def]
  all_goals decide

/-- Claim C1: the resolver is supposed to return the Monday of the week
under the first-Thursday (ISO-like) convention, giving 2025-03-03 for
week 10 of 2025 — as also stated by the docstring of the source function.
The implemented `strptime` `%W` convention instead returns 2025-03-10
(epoch day 20157): the code contradicts its own documentation. -/
theorem C1_resolver_week10 :
    get_start_date_from_week 10 2025 = some (daysFromCivil 2025 3 10) ∧
      daysFromCivil 2025 3 10 ≠ daysFromCivil 2025 3 3 := by
  decide

/-- Claim C2: for every task built from a row with numeric duration, the
day-span of the interval is max(1, durationHours / 8) with plain
division, so fractional spans are kept unrounded. -/
theorem C2_dayspan (i : ℕ) (row : RawRow) (q : ℚ) (t : Task)
    (hd : row.durationHours = .num q) (h : processRow i row = .task t) :
    t.fim - t.inicio = max 1 (q / 8) := by
  obtain ⟨w, tp, start, days, hw, htp, hs, hdays, ht⟩ := processRow_task_inv h
  rw [hd] at hdays
  simp only [daysNeeded, Option.some.injEq] at hdays
  subst ht
  show (start : ℚ) + days - start = max 1 (q / 8)
  rw [add_sub_cancel_left]
  exact hdays.symm

/-- Witness for C2 at the 10-hour row: the span is 5/4 days. -/
theorem C2_dayspan_witness :
    processRow 0 rowIntro10 = .task taskIntro10 ∧
      taskIntro10.fim - taskIntro10.inicio = max 1 ((10 : ℚ) / 8) :=
  ⟨eval_rowIntro10, C2_dayspan 0 rowIntro10 10 taskIntro10 rfl eval_rowIntro10⟩

/-- Claim C3 counterexample: for the completed scenario row the color
group is the literal "Concluído", not "Done"; and for a padded trainer
cell the color group is the raw cell, not the stripped trainer stored in
the task. -/
theorem C3_color_counterexample :
    processRow 0 rowDone = .task taskDone ∧
      taskDone.cor = some "Concluído" ∧ taskDone.cor ≠ some "Done" ∧
      processRow 1 rowPad = .task taskPad ∧
      taskPad.formador = "Ana" ∧ taskPad.cor ≠ some taskPad.formador :=
  ⟨eval_rowDone, rfl, by decide, eval_rowPad, rfl, by decide⟩

/-- Claim C3 as amended: the color group is the literal "Concluído" when
the row is completed and otherwise the raw trainer cell; opacity is 1/2
when completed and 1 otherwise; the label is the completion marker (when
completed) followed by the stripped topic and parenthesized stripped
trainer. -/
theorem C3_color_amended (i : ℕ) (row : RawRow) (t : Task)
    (h : processRow i row = .task t) :
    t.cor = (if row.completed then some "Concluído" else row.trainer) ∧
      t.opacity = (if row.completed then 1 / 2 else 1) ∧
      t.label = (if row.completed then "✅ " else "") ++ t.tarefa ++
        " (" ++ t.formador ++ ")" := by
  obtain ⟨w, tp, start, days, hw, htp, hs, hdays, ht⟩ := processRow_task_inv h
  subst ht
  exact ⟨rfl, rfl, rfl⟩

/-- Witness for the amended C3 at the completed scenario row. -/
theorem C3_color_amended_witness :
    processRow 0 rowDone = .task taskDone ∧
      (taskDone.cor = (if rowDone.completed then some "Concluído" else rowDone.trainer) ∧
        taskDone.opacity = (if rowDone.completed then 1 / 2 else 1) ∧
        taskDone.label = (if rowDone.completed then "✅ " else "") ++ taskDone.tarefa ++
          " (" ++ taskDone.formador ++ ")") :=
  ⟨eval_rowDone, C3_color_amended 0 rowDone taskDone eval_rowDone⟩

/-- Claim C4 counterexample: a row with a null topic is excluded, but the
diagnostics list stays empty — the null-check skip at lines 88-89 is a
bare `continue` and records nothing. -/
theorem C4_nullskip_counterexample :
    generate_schedule [rowNullTopic] = ([], 1, []) :=
  rfl

/-- Claim C4 as amended: a row with a null week or topic is silently
excluded (no diagnostic recorded), and the number of produced tasks plus
the number of skipped rows (silent skips plus warning skips) equals the
number of input rows. -/
theorem C4_nullskip_amended :
    (∀ (i : ℕ) (row : RawRow), row.week = none ∨ row.topic = none →
        processRow i row = .silentSkip) ∧
      ∀ rows : List RawRow,
        (generate_schedule rows).1.length + (generate_schedule rows).2.1 +
          (generate_schedule rows).2.2.length = rows.length := by
  constructor
  · rintro i row (hw | htp)
    · simp [processRow, hw]
    · cases hw : row.week with
      | none => simp [processRow, hw]
      | some w => simp [processRow, hw, htp]
  · intro rows
    have h := processRows_count 0 rows
    simp only [generate_schedule, sortTasks]
    rw [List.length_insertionSort]
    exact h

/-- Witness for the amended C4 at the null-topic row. -/
theorem C4_nullskip_amended_witness :
    processRow 0 rowNullTopic = .silentSkip ∧
      (generate_schedule [rowNullTopic]).1.length +
        (generate_schedule [rowNullTopic]).2.1 +
        (generate_schedule [rowNullTopic]).2.2.length = 1 :=
  ⟨C4_nullskip_amended.1 0 rowNullTopic (Or.inr rfl),
    C4_nullskip_amended.2 [rowNullTopic]⟩

/-- Claim C5 counterexample: a row with a null (NaN) duration does NOT
fail and is not skipped — `max(1, nan/8)` evaluates to 1 and the row
yields a one-day task. -/
theorem C5_duration_counterexample :
    processRow 0 rowNanDur = .task taskNanDur ∧
      taskNanDur.fim - taskNanDur.inicio = 1 :=
  ⟨eval_rowNanDur, by norm_num [taskNanDur, taskIntro]⟩

/-- Claim C5 as amended: a non-numeric duration raises and is handled as
a per-row skip whose warning names the row index; a null (NaN) duration
does not raise and yields a task with the one-day floor; and in all
cases every input row is processed (tasks + silent skips + warnings =
input rows). -/
theorem C5_duration_amended :
    (∀ (i : ℕ) (row : RawRow) (s : String) (w : ℚ) (tp : String),
        row.week = some w → row.topic = some tp →
        row.durationHours = .nonNumeric s →
        skipIndex? (processRow i row) = some i) ∧
      (∀ (i : ℕ) (row : RawRow) (t : Task), row.durationHours = .nan →
          processRow i row = .task t → t.fim - t.inicio = 1) ∧
      ∀ rows : List RawRow,
        (processRows 0 rows).1.length + (processRows 0 rows).2.1 +
          (processRows 0 rows).2.2.length = rows.length := by
  refine ⟨?_, ?_, processRows_count 0⟩
  · intro i row s w tp hw htp hd
    simp only [processRow, hw, htp]
    cases hs : get_start_date_from_week (pyInt w) 2025 with
    | none => rfl
    | some start => rw [hd]; rfl
  · intro i row t hdnan h
    obtain ⟨w, tp, start, days, hw, htp, hs, hdays, ht⟩ := processRow_task_inv h
    rw [hdnan] at hdays
    simp only [daysNeeded, Option.some.injEq] at hdays
    subst ht
    show (start : ℚ) + days - start = 1
    rw [add_sub_cancel_left]
    exact hdays.symm

/-- Witness for the amended C5: the non-numeric row is warning-skipped
with its index recorded, the NaN row yields a one-day task. -/
theorem C5_duration_amended_witness :
    skipIndex? (processRow 3 rowBadDur) = some 3 ∧
      processRow 0 rowNanDur = .task taskNanDur ∧
      taskNanDur.fim - taskNanDur.inicio = 1 :=
  ⟨C5_duration_amended.1 3 rowBadDur "abc" 10 "Intro" rfl rfl rfl,
    eval_rowNanDur,
    C5_duration_amended.2.1 0 rowNanDur taskNanDur rfl eval_rowNanDur⟩

/-- Claim C6: the built schedule is sorted by start date, then topic
(by code points, as Python compares strings), with ties broken by
original row index (pandas multi-column `sort_values` is a stable
lexsort), and it is a permutation of the built task list; on the
three-task example the output order is [C, B, A]. -/
theorem C6_sort_order :
    (∀ rows : List RawRow,
        List.Sorted sortLe (generate_schedule rows).1 ∧
          ((generate_schedule rows).1).Perm (processRows 0 rows).1) ∧
      sortTasks [(0, tA), (1, tB), (2, tC)] = [(2, tC), (1, tB), (0, tA)] := by
  refine ⟨fun rows => ⟨?_, ?_⟩, ?_⟩
  · simp only [generate_schedule, sortTasks]
    exact List.sorted_insertionSort sortLe _
  · simp only [generate_schedule, sortTasks]
    exact List.perm_insertionSort sortLe _
  · decide

/-- Claim C7: every produced task ends at least one day after it
starts. -/
theorem C7_end_after_start (i : ℕ) (row : RawRow) (t : Task)
    (h : processRow i row = .task t) : t.inicio + 1 ≤ t.fim := by
  obtain ⟨w, tp, start, days, hw, htp, hs, hdays, ht⟩ := processRow_task_inv h
  have h1 : (1 : ℚ) ≤ days := by
    cases hd : row.durationHours with
    | num q =>
      rw [hd] at hdays
      simp only [daysNeeded, Option.some.injEq] at hdays
      rw [← hdays]
      exact le_max_left 1 _
    | nan =>
      rw [hd] at hdays
      simp only [daysNeeded, Option.some.injEq] at hdays
      rw [← hdays]
    | nonNumeric s =>
      rw [hd] at hdays
      simp [daysNeeded] at hdays
  subst ht
  show (start : ℚ) + 1 ≤ (start : ℚ) + days
  exact add_le_add_left h1 _

/-- Witness for C7 at the scenario row. -/
theorem C7_end_after_start_witness :
    processRow 0 rowIntro = .task taskIntro ∧
      taskIntro.inicio + 1 ≤ taskIntro.fim :=
  ⟨eval_rowIntro, C7_end_after_start 0 rowIntro taskIntro eval_rowIntro⟩

/-- Claim C8: for every week 1..52 of 2025 the resolver returns a date,
namely epoch day 20094 + 7(w-1), whose weekday is Monday. -/
theorem C8_resolver_monday (w : ℤ) (h1 : 1 ≤ w) (h2 : w ≤ 52) :
    get_start_date_from_week w 2025 = some (20094 + 7 * (w - 1)) ∧
      weekdayM (20094 + 7 * (w - 1)) = 0 := by
  constructor
  · have hc : 0 ≤ w ∧ w ≤ 53 := ⟨by omega, by omega⟩
    have hw0 : ¬ w = 0 := by omega
    have hwd : weekdayM 20089 = 2 := by decide
    simp only [get_start_date_from_week, jan1_2025, hwd, if_pos hc, hw0, if_false]
    congr 1
    omega
  · simp only [weekdayM]
    omega

/-- Witness for C8 at week 10 of 2025. -/
theorem C8_resolver_monday_witness :
    get_start_date_from_week 10 2025 = some (20094 + 7 * (10 - 1)) ∧
      weekdayM (20094 + 7 * (10 - 1)) = 0 :=
  C8_resolver_monday 10 (by decide) (by decide)

/-- Claim C9 counterexample: for the half-week row with a missing
trainer cell the task trainer is "nan" — the string Python renders for
NaN — not the empty string; week 10.5 still truncates to 10. -/
theorem C9_coercion_counterexample :
    processRow 0 rowNoTrainer = .task taskNoTrainer ∧
      taskNoTrainer.formador = "nan" ∧ taskNoTrainer.formador ≠ "" ∧
      taskNoTrainer.semana = 10 :=
  ⟨eval_rowNoTrainer, rfl, by decide, rfl⟩

/-- Claim C9 as amended: the week is coerced with Python `int()`
(truncation toward zero), topic and trainer are stripped text, and a
missing trainer cell becomes the string "nan" (not the empty string),
since `str(nan)` is "nan". -/
theorem C9_coercion_amended (i : ℕ) (row : RawRow) (t : Task) (w : ℚ)
    (tp : String) (hw : row.week = some w) (htp : row.topic = some tp)
    (h : processRow i row = .task t) :
    t.semana = pyInt w ∧ t.tarefa = pyStrip tp ∧
      t.formador = pyStrip ((row.trainer).getD "nan") := by
  obtain ⟨w', tp', start, days, hw', htp', hs, hdays, ht⟩ := processRow_task_inv h
  rw [hw] at hw'
  rw [htp] at htp'
  injection hw' with hww
  injection htp' with htt
  subst hww
  subst htt
  subst ht
  exact ⟨rfl, rfl, rfl⟩

/-- Witness for the amended C9 at the half-week, missing-trainer row. -/
theorem C9_coercion_amended_witness :
    processRow 0 rowNoTrainer = .task taskNoTrainer ∧
      (taskNoTrainer.semana = pyInt halfWeek ∧
        taskNoTrainer.tarefa = pyStrip "  Intro  " ∧
        taskNoTrainer.formador = pyStrip ((rowNoTrainer.trainer).getD "nan")) :=
  ⟨eval_rowNoTrainer,
    C9_coercion_amended 0 rowNoTrainer taskNoTrainer halfWeek "  Intro  "
      rfl rfl eval_rowNoTrainer⟩

/-- Claim C10 counterexample: a missing (NaN) value in an existing
completion column is coerced by `astype(bool)` to True — `bool(nan)` is
truthy — so the row is treated as completed, not as not-completed. -/
theorem C10_completed_counterexample :
    coerce_concluido (some [none]) 1 = [true] ∧
      ¬ coerce_concluido (some [none]) 1 = [false] := by
  decide

/-- Claim C10 as amended: when the completion column is missing entirely
every row defaults to False; when the column exists, a present value is
kept and a missing (NaN) value becomes True under `bool()` coercion. -/
theorem C10_completed_amended :
    (∀ n : ℕ, coerce_concluido none n = List.replicate n false) ∧
      ∀ cells : List (Option Bool),
        coerce_concluido (some cells) cells.length =
          cells.map (fun c => c.getD true) :=
  ⟨fun _ => rfl, fun _ => rfl⟩

end Cronograma
